import Mathlib

/-!
Verification development for the rusty-gemini client library.

The Rust sources are shallowly embedded: pure data types become Lean
structures and inductives, serde (de)serialization is modelled over an
explicit JSON value type, machine integers become `Int`/`Nat`, `f32`/`f64`
configuration knobs become inert decimal literals, fallible code returns
`Except`/`Option`, and a Rust panic is modelled as `Option.none` in the
result of the function that can panic.  The network itself is abstracted:
functions that perform an HTTP call are parameterized by the call's result.
-/

namespace RustyGemini

/-- A JSON number literal, kept in the decimal form it was written in:
sign, the value of all written digits, how many of them were fraction
digits, and the explicit exponent.  Like `serde_json`, this distinguishes
integer literals (`fracLen = 0`, `exp10 = 0`) from float literals. -/
structure JsonNum : Type where
  neg : Bool
  mantissa : Nat
  fracLen : Nat
  exp10 : Int
deriving DecidableEq

/-- An integer as a JSON number literal. -/
def JsonNum.ofInt (n : Int) : JsonNum :=
  if n < 0 then { neg := true, mantissa := (-n).toNat, fracLen := 0, exp10 := 0 }
  else { neg := false, mantissa := n.toNat, fracLen := 0, exp10 := 0 }

/-- JSON values, the model of `serde_json::Value` used on the wire. -/
inductive Json : Type where
  | null : Json
  | bool (b : Bool) : Json
  | num (n : JsonNum) : Json
  | str (s : String) : Json
  | arr (elems : List Json) : Json
  | obj (fields : List (String × Json)) : Json

/-- Keys of a JSON object (empty for non-objects). -/
def Json.keys : Json → List String
  | .obj fields => fields.map Prod.fst
  | _ => []

/-- Field lookup in a JSON object. -/
def Json.getField? : Json → String → Option Json
  | .obj fields, name => fields.lookup name
  | _, _ => none

/-! ## Base64 (the `base64::engine::general_purpose::STANDARD` engine)

Bytes are `Nat`s; well-formed bytes are `< 256`.  The STANDARD engine uses
the canonical alphabet, mandatory `=` padding and rejects non-zero trailing
bits. -/

/-- The standard base64 alphabet. -/
def b64Alphabet : List Char :=
  "ABCDEFGHIJKLMNOPQRSTUVWXYZabcdefghijklmnopqrstuvwxyz0123456789+/".data

/-- Sextet to alphabet character. -/
def b64Char (n : Nat) : Char := b64Alphabet.getD n '='

/-- Alphabet character back to sextet; `none` for characters outside the
alphabet (including `=`). -/
def b64DecChar (c : Char) : Option Nat := b64Alphabet.findIdx? (fun x => x = c)

/-- Encode bytes in groups of three, padding the final group. -/
def b64encodeChunks : List Nat → List Char
  | [] => []
  | [b0] => [b64Char (b0 / 4), b64Char (b0 % 4 * 16), '=', '=']
  | [b0, b1] => [b64Char (b0 / 4), b64Char (b0 % 4 * 16 + b1 / 16),
      b64Char (b1 % 16 * 4), '=']
  | b0 :: b1 :: b2 :: rest =>
      b64Char (b0 / 4) :: b64Char (b0 % 4 * 16 + b1 / 16) ::
      b64Char (b1 % 16 * 4 + b2 / 64) :: b64Char (b2 % 64) :: b64encodeChunks rest

/-- base64-encode a byte sequence. -/
def b64encode (bytes : List Nat) : String := String.mk (b64encodeChunks bytes)

/-- Decode characters in groups of four.  Padded groups are only accepted at
the very end, and trailing bits must be zero (STANDARD engine strictness). -/
def b64decodeChunks : List Char → Option (List Nat)
  | [] => some []
  | c0 :: c1 :: c2 :: c3 :: rest =>
    if c2 = '=' ∧ c3 = '=' ∧ rest = [] then
      match b64DecChar c0, b64DecChar c1 with
      | some s0, some s1 =>
          if s1 % 16 = 0 then some [s0 * 4 + s1 / 16] else none
      | _, _ => none
    else if c3 = '=' ∧ rest = [] then
      match b64DecChar c0, b64DecChar c1, b64DecChar c2 with
      | some s0, some s1, some s2 =>
          if s2 % 4 = 0 then some [s0 * 4 + s1 / 16, s1 % 16 * 16 + s2 / 4]
          else none
      | _, _, _ => none
    else
      match b64DecChar c0, b64DecChar c1, b64DecChar c2, b64DecChar c3 with
      | some s0, some s1, some s2, some s3 =>
          match b64decodeChunks rest with
          | some tail =>
              some ((s0 * 4 + s1 / 16) :: (s1 % 16 * 16 + s2 / 4) ::
                (s2 % 4 * 64 + s3) :: tail)
          | none => none
      | _, _, _, _ => none
  | _ => none

/-- base64-decode a string; `none` on any malformed input. -/
def b64decode (s : String) : Option (List Nat) := b64decodeChunks s.data


/-! ## UTF-8 decoding (the model of `str::from_utf8`)

Strict decoding: continuation bytes are checked, overlong encodings and
surrogate code points are rejected. -/

/-- Decode a byte sequence as UTF-8 characters; `none` on invalid input. -/
def utf8DecodeAux : List Nat → Option (List Char)
  | [] => some []
  | b :: rest =>
    if b < 0x80 then
      (utf8DecodeAux rest).map (fun cs => Char.ofNat b :: cs)
    else if b < 0xC2 then none
    else if b < 0xE0 then
      match rest with
      | b1 :: rest2 =>
        if 0x80 ≤ b1 ∧ b1 < 0xC0 then
          (utf8DecodeAux rest2).map
            (fun cs => Char.ofNat ((b - 0xC0) * 64 + (b1 - 0x80)) :: cs)
        else none
      | _ => none
    else if b < 0xF0 then
      match rest with
      | b1 :: b2 :: rest2 =>
        if 0x80 ≤ b1 ∧ b1 < 0xC0 ∧ 0x80 ≤ b2 ∧ b2 < 0xC0 then
          let cp := (b - 0xE0) * 4096 + (b1 - 0x80) * 64 + (b2 - 0x80)
          if 0x800 ≤ cp ∧ ¬ (0xD800 ≤ cp ∧ cp ≤ 0xDFFF) then
            (utf8DecodeAux rest2).map (fun cs => Char.ofNat cp :: cs)
          else none
        else none
      | _ => none
    else if b < 0xF5 then
      match rest with
      | b1 :: b2 :: b3 :: rest2 =>
        if 0x80 ≤ b1 ∧ b1 < 0xC0 ∧ 0x80 ≤ b2 ∧ b2 < 0xC0 ∧ 0x80 ≤ b3 ∧ b3 < 0xC0 then
          let cp := (b - 0xF0) * 262144 + (b1 - 0x80) * 4096 +
            (b2 - 0x80) * 64 + (b3 - 0x80)
          if 0x10000 ≤ cp ∧ cp ≤ 0x10FFFF then
            (utf8DecodeAux rest2).map (fun cs => Char.ofNat cp :: cs)
          else none
        else none
      | _ => none
    else none

/-- Decode a byte sequence as a UTF-8 string; `none` models the `Err` of
`str::from_utf8`. -/
def utf8Decode? (bytes : List Nat) : Option String :=
  (utf8DecodeAux bytes).map String.mk

/-- Model of the byte slice `&s[1..]`: `none` when the slice operation
panics, i.e. when the string is empty or byte offset 1 falls inside a
multi-byte character. -/
def strTail? (s : String) : Option String :=
  match s.data with
  | [] => none
  | c :: rest => if c.toNat < 0x80 then some (String.mk rest) else none

/-! ## JSON text parsing (the model of `serde_json::from_str`)

A small recursive-descent parser over the character list, fueled for
termination.  `serde_json` requires the whole input to be consumed apart
from trailing whitespace. -/

/-- JSON whitespace. -/
def jsonWs (c : Char) : Bool := c = ' ' ∨ c = '\t' ∨ c = '\n' ∨ c = '\r'

/-- Drop leading JSON whitespace. -/
def skipWs (cs : List Char) : List Char := cs.dropWhile jsonWs

/-- ASCII decimal digit test. -/
def isDigitChar (c : Char) : Bool := '0' ≤ c ∧ c ≤ '9'

/-- Value of a digit string. -/
def digitsToNat (ds : List Char) : Nat :=
  ds.foldl (fun acc c => acc * 10 + (c.toNat - 48)) 0

/-- Value of a hexadecimal digit. -/
def hexVal (c : Char) : Option Nat :=
  if '0' ≤ c ∧ c ≤ '9' then some (c.toNat - 48)
  else if 'a' ≤ c ∧ c ≤ 'f' then some (c.toNat - 87)
  else if 'A' ≤ c ∧ c ≤ 'F' then some (c.toNat - 55)
  else none

/-- Single-character string escapes. -/
def escChar (c : Char) : Option Char :=
  if c = '"' then some '"'
  else if c = '\\' then some '\\'
  else if c = '/' then some '/'
  else if c = 'b' then some (Char.ofNat 8)
  else if c = 'f' then some (Char.ofNat 12)
  else if c = 'n' then some '\n'
  else if c = 'r' then some '\r'
  else if c = 't' then some '\t'
  else none

/-- Parse the contents of a string literal after the opening quote, up to
and including the closing quote.  Returns the characters and the rest of
the input. -/
def parseStringChars : Nat → List Char → Except String (List Char × List Char)
  | 0, _ => .error "recursion limit exceeded"
  | _ + 1, [] => .error "EOF while parsing a string"
  | _ + 1, '"' :: rest => .ok ([], rest)
  | fuel + 1, '\\' :: rest =>
    match rest with
    | [] => .error "EOF while parsing a string"
    | 'u' :: h1 :: h2 :: h3 :: h4 :: rest2 =>
      match hexVal h1, hexVal h2, hexVal h3, hexVal h4 with
      | some a, some b, some c, some d =>
          (parseStringChars fuel rest2).map
            (fun p => (Char.ofNat (a * 4096 + b * 256 + c * 16 + d) :: p.1, p.2))
      | _, _, _, _ => .error "invalid unicode escape"
    | e :: rest2 =>
      match escChar e with
      | some c => (parseStringChars fuel rest2).map (fun p => (c :: p.1, p.2))
      | none => .error "invalid escape"
  | fuel + 1, c :: rest =>
      (parseStringChars fuel rest).map (fun p => (c :: p.1, p.2))

/-- Parse an optional sign followed by a digit run. -/
def parseSignedDigits (cs : List Char) : Except String (Int × List Char) :=
  let (sign, cs1) : Int × List Char :=
    match cs with
    | '+' :: rest => (1, rest)
    | '-' :: rest => (-1, rest)
    | rest => (1, rest)
  let ds := cs1.takeWhile isDigitChar
  if ds = [] then .error "expected digits in exponent"
  else .ok (sign * (digitsToNat ds : Int), cs1.dropWhile isDigitChar)

/-- Parse a JSON number starting at the current position. -/
def parseNumber (cs : List Char) : Except String (Json × List Char) :=
  let (neg, cs1) : Bool × List Char :=
    match cs with
    | '-' :: rest => (true, rest)
    | rest => (false, rest)
  let intDigits := cs1.takeWhile isDigitChar
  let cs2 := cs1.dropWhile isDigitChar
  if intDigits = [] then .error "expected value"
  else
    let (fracDigits, cs3) : List Char × List Char :=
      match cs2 with
      | '.' :: rest => (rest.takeWhile isDigitChar, rest.dropWhile isDigitChar)
      | _ => ([], cs2)
    let hadDot : Bool := match cs2 with | '.' :: _ => true | _ => false
    if hadDot ∧ fracDigits = [] then .error "expected fraction digits"
    else
      match
        (match cs3 with
         | 'e' :: rest => parseSignedDigits rest
         | 'E' :: rest => parseSignedDigits rest
         | rest => .ok ((0 : Int), rest)) with
      | .error e => .error e
      | .ok (exp, cs4) =>
        .ok (.num { neg := neg,
                    mantissa := digitsToNat (intDigits ++ fracDigits),
                    fracLen := fracDigits.length, exp10 := exp }, cs4)

mutual

/-- Parse one JSON value. -/
def parseValue : Nat → List Char → Except String (Json × List Char)
  | 0, _ => .error "recursion limit exceeded"
  | fuel + 1, cs =>
    match skipWs cs with
    | 'n' :: 'u' :: 'l' :: 'l' :: rest => .ok (.null, rest)
    | 't' :: 'r' :: 'u' :: 'e' :: rest => .ok (.bool true, rest)
    | 'f' :: 'a' :: 'l' :: 's' :: 'e' :: rest => .ok (.bool false, rest)
    | '"' :: rest =>
        (parseStringChars (fuel + 1) rest).map
          (fun p => (.str (String.mk p.1), p.2))
    | '[' :: rest =>
        (match skipWs rest with
         | ']' :: rest2 => .ok (.arr [], rest2)
         | cs2 => (parseArrayItems fuel cs2).map (fun p => (.arr p.1, p.2)))
    | '{' :: rest =>
        (match skipWs rest with
         | '}' :: rest2 => .ok (.obj [], rest2)
         | cs2 => (parseObjectItems fuel cs2).map (fun p => (.obj p.1, p.2)))
    | cs1 => parseNumber cs1

/-- Parse the items of a non-empty JSON array, consuming the closing
bracket. -/
def parseArrayItems : Nat → List Char → Except String (List Json × List Char)
  | 0, _ => .error "recursion limit exceeded"
  | fuel + 1, cs =>
    match parseValue fuel cs with
    | .error e => .error e
    | .ok (v, rest) =>
      match skipWs rest with
      | ',' :: rest2 =>
          (parseArrayItems fuel rest2).map (fun p => (v :: p.1, p.2))
      | ']' :: rest2 => .ok ([v], rest2)
      | _ => .error "expected comma or closing bracket"

/-- Parse the members of a non-empty JSON object, consuming the closing
brace. -/
def parseObjectItems : Nat → List Char → Except String (List (String × Json) × List Char)
  | 0, _ => .error "recursion limit exceeded"
  | fuel + 1, cs =>
    match skipWs cs with
    | '"' :: rest =>
      match parseStringChars (fuel + 1) rest with
      | .error e => .error e
      | .ok (key, rest1) =>
        match skipWs rest1 with
        | ':' :: rest2 =>
          match parseValue fuel rest2 with
          | .error e => .error e
          | .ok (v, rest3) =>
            match skipWs rest3 with
            | ',' :: rest4 =>
                (parseObjectItems fuel rest4).map
                  (fun p => ((String.mk key, v) :: p.1, p.2))
            | '}' :: rest4 => .ok ([(String.mk key, v)], rest4)
            | _ => .error "expected comma or closing brace"
        | _ => .error "expected colon"
    | _ => .error "key must be a string"

end

/-- Parse a whole JSON document, as `serde_json::from_str` does: one value
followed only by whitespace. -/
def Json.parse (s : String) : Except String Json :=
  match parseValue (s.data.length + 1) s.data with
  | .error e => .error e
  | .ok (j, rest) =>
      if skipWs rest = [] then .ok j else .error "trailing characters"

/-! ## Result shapes

`DRes` models serde's `Result<_, Error>`, with the error rendered to its
message string.  `PRes` additionally models a Rust panic as `none`: a
deserializer that calls `.unwrap()` lives in `PRes`. -/

/-- Equality of `Except` values is decidable componentwise. -/
instance {ε α : Type} [DecidableEq ε] [DecidableEq α] : DecidableEq (Except ε α) :=
  fun x y =>
    match x, y with
    | .error e1, .error e2 =>
        if h : e1 = e2 then isTrue (by rw [h])
        else isFalse (by intro hc; cases hc; exact h rfl)
    | .ok a1, .ok a2 =>
        if h : a1 = a2 then isTrue (by rw [h])
        else isFalse (by intro hc; cases hc; exact h rfl)
    | .error _, .ok _ => isFalse (by intro hc; cases hc)
    | .ok _, .error _ => isFalse (by intro hc; cases hc)

/-- A serde result: value or error message. -/
abbrev DRes (α : Type) := Except String α

/-- A possibly panicking serde result: `none` is a panic. -/
abbrev PRes (α : Type) := Option (DRes α)

/-- Sequence possibly panicking results: a panic or an error interrupts. -/
def PRes.bind {α β : Type} (x : PRes α) (f : α → PRes β) : PRes β :=
  match x with
  | none => none
  | some (.error e) => some (.error e)
  | some (.ok a) => f a

/-- Decode every element of a list, propagating errors and panics. -/
def decodeListP {α : Type} (dec : Json → PRes α) : List Json → PRes (List α)
  | [] => some (.ok [])
  | j :: js =>
      PRes.bind (dec j) fun a =>
      PRes.bind (decodeListP dec js) fun as =>
      some (.ok (a :: as))

/-- Decode a required string. -/
def getStr (j : Json) : DRes String :=
  match j with
  | .str s => .ok s
  | _ => .error "invalid type: expected a string"

/-- Decode a required `i32`: only an integer literal in range is accepted
(a literal with a fraction or an exponent is a float to `serde_json`). -/
def getI32 (j : Json) : DRes Int :=
  match j with
  | .num n =>
      if n.fracLen = 0 ∧ n.exp10 = 0 then
        let v : Int := if n.neg then -(n.mantissa : Int) else (n.mantissa : Int)
        if -2147483648 ≤ v ∧ v < 2147483648 then .ok v
        else .error "invalid value: integer out of range of i32"
      else .error "invalid type: expected i32"
  | _ => .error "invalid type: expected i32"

/-- Decode a required struct field. -/
def reqField {α : Type} (j : Json) (name : String) (dec : Json → DRes α) : DRes α :=
  match j.getField? name with
  | none => .error ("missing field " ++ name)
  | some v => dec v

/-- Decode an optional (`Option<T>`) struct field: a missing field and an
explicit `null` both give `none`. -/
def optField {α : Type} (j : Json) (name : String) (dec : Json → DRes α) :
    DRes (Option α) :=
  match j.getField? name with
  | none => .ok none
  | some .null => .ok none
  | some v => (dec v).map some

/-- Optional struct field whose element decoder may panic. -/
def optFieldP {α : Type} (j : Json) (name : String) (dec : Json → PRes α) :
    PRes (Option α) :=
  match j.getField? name with
  | none => some (.ok none)
  | some .null => some (.ok none)
  | some v => PRes.bind (dec v) fun a => some (.ok (some a))

/-! ## `error.rs`: the error taxonomy and the status-string mapping -/

/-- `GeminiErrorKind` from `error.rs`. -/
inductive GeminiErrorKind : Type where
  | invalidArgument
  | unsupportedCountry
  | permissionDenied
  | resourceExhausted
  | internal
  | serviceUnavailable
  | other
deriving DecidableEq

/-- `GeminiError` from `error.rs`. -/
structure GeminiError : Type where
  kind : GeminiErrorKind
  message : String
deriving DecidableEq

/-- `GeminiError::message` from `error.rs`: an `Other` error with the given
message. -/
def GeminiError.ofMessage (msg : String) : GeminiError :=
  { kind := GeminiErrorKind.other, message := msg }

/-- `GeminiGenericError` from `api.rs`: the server's error envelope body. -/
structure GeminiGenericError : Type where
  code : Int
  message : String
  status : String
deriving DecidableEq

/-- `GeminiGenericErrorResponse` from `api.rs`. -/
structure GeminiGenericErrorResponse : Type where
  error : GeminiGenericError
deriving DecidableEq

/-- `impl From<GeminiGenericError> for GeminiError`: the status-string to
error-kind mapping. -/
def GeminiError.fromGeneric (value : GeminiGenericError) : GeminiError :=
  let kind :=
    match value.status with
    | "INVALID_ARGUMENT" => GeminiErrorKind.invalidArgument
    | "FAILED_PRECONDITION" => GeminiErrorKind.unsupportedCountry
    | "PERMISSION_DENIED" => GeminiErrorKind.permissionDenied
    | "RESOURCE_EXHAUSTED" => GeminiErrorKind.resourceExhausted
    | "INTERNAL" => GeminiErrorKind.internal
    | "UNAVAILABLE" => GeminiErrorKind.serviceUnavailable
    | _ => GeminiErrorKind.other
  let message := value.message
  { kind := kind, message := message }

/-- Deserializer for the error envelope contents. -/
def GeminiGenericError.fromJson (j : Json) : DRes GeminiGenericError :=
  match j with
  | .obj _ =>
    match reqField j "code" getI32 with
    | .error e => .error e
    | .ok code =>
      match reqField j "message" getStr with
      | .error e => .error e
      | .ok message =>
        match reqField j "status" getStr with
        | .error e => .error e
        | .ok status => .ok { code := code, message := message, status := status }
  | _ => .error "invalid type: expected a map"

/-- Deserializer for `GeminiGenericErrorResponse`. -/
def GeminiGenericErrorResponse.fromJson (j : Json) : DRes GeminiGenericErrorResponse :=
  match j with
  | .obj _ =>
    match reqField j "error" GeminiGenericError.fromJson with
    | .error e => .error e
    | .ok err => .ok { error := err }
  | _ => .error "invalid type: expected a map"

/-! ## `content.rs`: roles, parts and contents -/

/-- `Role` from `content.rs`. -/
inductive Role : Type where
  | user
  | model
deriving DecidableEq

/-- `Part` from `content.rs`: text, or inline binary data with a MIME type.
Bytes are `Nat`s (well-formed when `< 256`). -/
inductive Part : Type where
  | text (s : String)
  | data (data : List Nat) (mime_type : String)
deriving DecidableEq

/-- `Content` from `content.rs`. -/
structure Content : Type where
  role : Role
  parts : List Part
deriving DecidableEq

/-- `Content::user`. -/
def Content.user (p : Part) : Content := { role := Role.user, parts := [p] }

/-- `Content::model`. -/
def Content.model (p : Part) : Content := { role := Role.model, parts := [p] }

/-- `ser_data` from `content.rs`: serialize bytes as a base64 string. -/
def ser_data (bytes : List Nat) : Json := .str (b64encode bytes)

/-- `des_data` from `content.rs`: deserialize a base64 string back into
bytes.  The source calls `.unwrap()` on the base64 decode, so a string that
is not valid base64 is a panic (`none`). -/
def des_data (j : Json) : PRes (List Nat) :=
  match getStr j with
  | .error e => some (.error e)
  | .ok s =>
    match b64decode s with
    | some bytes => some (.ok bytes)
    | none => none

/-- Serializer for `Role` (serde `rename_all = "camelCase"`). -/
def Role.toJson : Role → Json
  | .user => .str "user"
  | .model => .str "model"

/-- Deserializer for `Role`. -/
def Role.fromJson (j : Json) : DRes Role :=
  match j with
  | .str "user" => .ok Role.user
  | .str "model" => .ok Role.model
  | .str s => .error ("unknown variant " ++ s)
  | _ => .error "invalid type: expected a string"

/-- Serializer for `Part` (externally tagged enum; variants renamed to
`text` and `inlineData`, the data field via `ser_data`, the MIME field
renamed to `mimeType`). -/
def Part.toJson : Part → Json
  | .text s => .obj [("text", .str s)]
  | .data bytes mime =>
      .obj [("inlineData", .obj [("data", ser_data bytes), ("mimeType", .str mime)])]

/-- Deserializer for `Part`; may panic through `des_data`. -/
def Part.fromJson (j : Json) : PRes Part :=
  match j with
  | .obj [(key, v)] =>
    if key = "text" then
      match getStr v with
      | .ok s => some (.ok (Part.text s))
      | .error e => some (.error e)
    else if key = "inlineData" then
      match v.getField? "data" with
      | none => some (.error "missing field data")
      | some dj =>
        PRes.bind (des_data dj) fun bytes =>
        match v.getField? "mimeType" with
        | none => some (.error "missing field mimeType")
        | some mj =>
          match getStr mj with
          | .ok mime => some (.ok (Part.data bytes mime))
          | .error e => some (.error e)
    else some (.error ("unknown variant " ++ key))
  | _ => some (.error "invalid type: expected an externally tagged enum")

/-- Serializer for `Content` (fields `role` and `parts`). -/
def Content.toJson (c : Content) : Json :=
  .obj [("role", c.role.toJson), ("parts", .arr (c.parts.map Part.toJson))]

/-- Deserializer for `Content`; may panic through `Part.fromJson`. -/
def Content.fromJson (j : Json) : PRes Content :=
  match j with
  | .obj _ =>
    match j.getField? "role" with
    | none => some (.error "missing field role")
    | some rj =>
      match Role.fromJson rj with
      | .error e => some (.error e)
      | .ok role =>
        match j.getField? "parts" with
        | none => some (.error "missing field parts")
        | some (.arr pjs) =>
            PRes.bind (decodeListP Part.fromJson pjs) fun ps =>
            some (.ok { role := role, parts := ps })
        | some _ => some (.error "invalid type: expected a sequence")
  | _ => some (.error "invalid type: expected a map")

/-! ## `api.rs` and `grounding.rs`: response-side schema types -/

/-- `HarmCategory` from `api.rs`. -/
inductive HarmCategory : Type where
  | unspecified
  | harassment
  | hateSpeech
  | sexuallyExplicit
  | dangerousContent
deriving DecidableEq

/-- Wire name of a `HarmCategory` (serde renames). -/
def HarmCategory.wireName : HarmCategory → String
  | .unspecified => "HARM_CATEGORY_UNSPECIFIED"
  | .harassment => "HARM_CATEGORY_HARASSMENT"
  | .hateSpeech => "HARM_CATEGORY_HATE_SPEECH"
  | .sexuallyExplicit => "HARM_CATEGORY_SEXUALLY_EXPLICIT"
  | .dangerousContent => "HARM_CATEGORY_DANGEROUS_CONTENT"

/-- Serializer for `HarmCategory`. -/
def HarmCategory.toJson (c : HarmCategory) : Json := .str c.wireName

/-- Deserializer for `HarmCategory`. -/
def HarmCategory.fromJson (j : Json) : DRes HarmCategory :=
  match j with
  | .str "HARM_CATEGORY_UNSPECIFIED" => .ok .unspecified
  | .str "HARM_CATEGORY_HARASSMENT" => .ok .harassment
  | .str "HARM_CATEGORY_HATE_SPEECH" => .ok .hateSpeech
  | .str "HARM_CATEGORY_SEXUALLY_EXPLICIT" => .ok .sexuallyExplicit
  | .str "HARM_CATEGORY_DANGEROUS_CONTENT" => .ok .dangerousContent
  | .str s => .error ("unknown variant " ++ s)
  | _ => .error "invalid type: expected a string"

/-- `HarmProbability` from `api.rs` (serde `SCREAMING_SNAKE_CASE`). -/
inductive HarmProbability : Type where
  | unspecified
  | negligible
  | low
  | medium
  | high
deriving DecidableEq

/-- Deserializer for `HarmProbability`. -/
def HarmProbability.fromJson (j : Json) : DRes HarmProbability :=
  match j with
  | .str "UNSPECIFIED" => .ok .unspecified
  | .str "NEGLIGIBLE" => .ok .negligible
  | .str "LOW" => .ok .low
  | .str "MEDIUM" => .ok .medium
  | .str "HIGH" => .ok .high
  | .str s => .error ("unknown variant " ++ s)
  | _ => .error "invalid type: expected a string"

/-- `SafetyRating` from `api.rs`. -/
structure SafetyRating : Type where
  category : HarmCategory
  probability : HarmProbability
deriving DecidableEq

/-- Deserializer for `SafetyRating`. -/
def SafetyRating.fromJson (j : Json) : DRes SafetyRating :=
  match j with
  | .obj _ =>
    match reqField j "category" HarmCategory.fromJson with
    | .error e => .error e
    | .ok category =>
      match reqField j "probability" HarmProbability.fromJson with
      | .error e => .error e
      | .ok probability => .ok { category := category, probability := probability }
  | _ => .error "invalid type: expected a map"

/-- `CitationSource` from `api.rs`. -/
structure CitationSource : Type where
  start_index : Int
  end_index : Int
  uri : String
  license : Option String
deriving DecidableEq

/-- Deserializer for `CitationSource` (camelCase wire names). -/
def CitationSource.fromJson (j : Json) : DRes CitationSource :=
  match j with
  | .obj _ =>
    match reqField j "startIndex" getI32 with
    | .error e => .error e
    | .ok si =>
      match reqField j "endIndex" getI32 with
      | .error e => .error e
      | .ok ei =>
        match reqField j "uri" getStr with
        | .error e => .error e
        | .ok uri =>
          match optField j "license" getStr with
          | .error e => .error e
          | .ok license =>
              .ok { start_index := si, end_index := ei, uri := uri, license := license }
  | _ => .error "invalid type: expected a map"

/-- Decode a required JSON array with a pure element decoder. -/
def getArr {α : Type} (dec : Json → DRes α) (j : Json) : DRes (List α) :=
  match j with
  | .arr js => js.mapM dec
  | _ => .error "invalid type: expected a sequence"

/-- `CitationMetadata` from `api.rs`. -/
structure CitationMetadata : Type where
  citation_sources : List CitationSource
deriving DecidableEq

/-- Deserializer for `CitationMetadata`. -/
def CitationMetadata.fromJson (j : Json) : DRes CitationMetadata :=
  match j with
  | .obj _ =>
    match reqField j "citationSources" (getArr CitationSource.fromJson) with
    | .error e => .error e
    | .ok xs => .ok { citation_sources := xs }
  | _ => .error "invalid type: expected a map"

/-- `FinishReason` from `api.rs`. -/
inductive FinishReason : Type where
  | unspecified
  | stop
  | maxTokens
  | safety
  | recitation
  | language
  | other
  | blockList
  | prohibitedContent
  | spii
  | malformedFunctionCall
deriving DecidableEq

/-- Deserializer for `FinishReason` (the `SAFTEY` rename typo is the
source's). -/
def FinishReason.fromJson (j : Json) : DRes FinishReason :=
  match j with
  | .str "FINISH_REASON_UNSPECIFIED" => .ok .unspecified
  | .str "STOP" => .ok .stop
  | .str "MAX_TOKENS" => .ok .maxTokens
  | .str "SAFTEY" => .ok .safety
  | .str "RECITATION" => .ok .recitation
  | .str "LANGUAGE" => .ok .language
  | .str "OTHER" => .ok .other
  | .str "BLOCKLIST" => .ok .blockList
  | .str "PROHIBITED_CONTENT" => .ok .prohibitedContent
  | .str "SPII" => .ok .spii
  | .str "MALFORMED_FUNCTION_CALL" => .ok .malformedFunctionCall
  | .str s => .error ("unknown variant " ++ s)
  | _ => .error "invalid type: expected a string"

/-- `AtrributionSourceId` from `grounding.rs` (spelling is the source's). -/
inductive AtrributionSourceId : Type where
  | groundingPassageId (passage_id : String) (part_index : String)
  | semanticRetrieverChunk (source : String) (chunk : String)
deriving DecidableEq

/-- Deserializer for `AtrributionSourceId` (externally tagged, camelCase
variant names; only the first variant renames its fields). -/
def AtrributionSourceId.fromJson (j : Json) : DRes AtrributionSourceId :=
  match j with
  | .obj [(key, v)] =>
    if key = "groundingPassageId" then
      match reqField v "passageId" getStr with
      | .error e => .error e
      | .ok pid =>
        match reqField v "partIndex" getStr with
        | .error e => .error e
        | .ok pix => .ok (.groundingPassageId pid pix)
    else if key = "semanticRetrieverChunk" then
      match reqField v "source" getStr with
      | .error e => .error e
      | .ok source =>
        match reqField v "chunk" getStr with
        | .error e => .error e
        | .ok chunk => .ok (.semanticRetrieverChunk source chunk)
    else .error ("unknown variant " ++ key)
  | _ => .error "invalid type: expected an externally tagged enum"

/-- `GroundingAtrribution` from `grounding.rs`. -/
structure GroundingAtrribution : Type where
  source_id : AtrributionSourceId
  content : Content
deriving DecidableEq

/-- Deserializer for `GroundingAtrribution`; may panic through
`Content.fromJson`. -/
def GroundingAtrribution.fromJson (j : Json) : PRes GroundingAtrribution :=
  match j with
  | .obj _ =>
    match reqField j "sourceId" AtrributionSourceId.fromJson with
    | .error e => some (.error e)
    | .ok sid =>
      match j.getField? "content" with
      | none => some (.error "missing field content")
      | some cj =>
          PRes.bind (Content.fromJson cj) fun c =>
          some (.ok { source_id := sid, content := c })
  | _ => some (.error "invalid type: expected a map")

/-- `Candidate` from `api.rs`. -/
structure Candidate : Type where
  content : Content
  safety_ratings : Option (List SafetyRating)
  citation_metadata : Option CitationMetadata
  finish_reason : Option FinishReason
  grounding_attributions : Option (List GroundingAtrribution)
deriving DecidableEq

/-- Decode a required JSON array whose element decoder may panic. -/
def getArrP {α : Type} (dec : Json → PRes α) (j : Json) : PRes (List α) :=
  match j with
  | .arr js => decodeListP dec js
  | _ => some (.error "invalid type: expected a sequence")

/-- Deserializer for `Candidate` (camelCase wire names); may panic through
the part decoders. -/
def Candidate.fromJson (j : Json) : PRes Candidate :=
  match j with
  | .obj _ =>
    match j.getField? "content" with
    | none => some (.error "missing field content")
    | some cj =>
      PRes.bind (Content.fromJson cj) fun content =>
      match optField j "safetyRatings" (getArr SafetyRating.fromJson) with
      | .error e => some (.error e)
      | .ok sr =>
        match optField j "citationMetadata" CitationMetadata.fromJson with
        | .error e => some (.error e)
        | .ok cm =>
          match optField j "finishReason" FinishReason.fromJson with
          | .error e => some (.error e)
          | .ok fr =>
            PRes.bind (optFieldP j "groundingAttributions" (getArrP GroundingAtrribution.fromJson))
              fun ga =>
            some (.ok { content := content, safety_ratings := sr,
                        citation_metadata := cm, finish_reason := fr,
                        grounding_attributions := ga })
  | _ => some (.error "invalid type: expected a map")

/-- `Candidate::text` from `api.rs`: the concatenation of the text parts. -/
def Candidate.text (c : Candidate) : String :=
  String.join (c.content.parts.filterMap fun p =>
    match p with
    | Part.text t => some t
    | _ => none)

/-- `BlockReason` from `api.rs`. -/
inductive BlockReason : Type where
  | unspecified
  | saftey
  | other
deriving DecidableEq

/-- Deserializer for `BlockReason` (the `SAFTEY` rename typo is the
source's). -/
def BlockReason.fromJson (j : Json) : DRes BlockReason :=
  match j with
  | .str "BLOCK_REASON_UNSPECIFIED" => .ok .unspecified
  | .str "SAFTEY" => .ok .saftey
  | .str "OTHER" => .ok .other
  | .str s => .error ("unknown variant " ++ s)
  | _ => .error "invalid type: expected a string"

/-- `PromptFeedback` from `api.rs`; the `saftey_ratings` field (source's
spelling) is required on the wire as `safteyRatings`. -/
structure PromptFeedback : Type where
  block_reason : Option BlockReason
  block_reason_message : Option String
  saftey_ratings : List SafetyRating
deriving DecidableEq

/-- Deserializer for `PromptFeedback`. -/
def PromptFeedback.fromJson (j : Json) : DRes PromptFeedback :=
  match j with
  | .obj _ =>
    match optField j "blockReason" BlockReason.fromJson with
    | .error e => .error e
    | .ok br =>
      match optField j "blockReasonMessage" getStr with
      | .error e => .error e
      | .ok brm =>
        match reqField j "safteyRatings" (getArr SafetyRating.fromJson) with
        | .error e => .error e
        | .ok srs =>
            .ok { block_reason := br, block_reason_message := brm,
                  saftey_ratings := srs }
  | _ => .error "invalid type: expected a map"

/-- `UsageMetadata` from `api.rs`. -/
structure UsageMetadata : Type where
  prompt_token_count : Option Int
  candidates_token_count : Option Int
  cached_content_token_count : Option Int
  total_token_count : Option Int
deriving DecidableEq

/-- Deserializer for `UsageMetadata` (camelCase wire names). -/
def UsageMetadata.fromJson (j : Json) : DRes UsageMetadata :=
  match j with
  | .obj _ =>
    match optField j "promptTokenCount" getI32 with
    | .error e => .error e
    | .ok p =>
      match optField j "candidatesTokenCount" getI32 with
      | .error e => .error e
      | .ok c =>
        match optField j "cachedContentTokenCount" getI32 with
        | .error e => .error e
        | .ok cc =>
          match optField j "totalTokenCount" getI32 with
          | .error e => .error e
          | .ok t =>
              .ok { prompt_token_count := p, candidates_token_count := c,
                    cached_content_token_count := cc, total_token_count := t }
  | _ => .error "invalid type: expected a map"

/-! ## `api.rs`: request-side configuration types and their serializers

`f32`/`f64` knobs are carried as inert decimal literals; `i32` knobs as `Int`.
Serde's `skip_serializing_if = "Option::is_none"` becomes `optSer`: an
absent field contributes no key at all. -/

/-- A field that is present only when the option is `some` (the model of
`skip_serializing_if = "Option::is_none"`). -/
def optSer {α : Type} (name : String) (o : Option α) (f : α → Json) :
    List (String × Json) :=
  match o with
  | none => []
  | some a => [(name, f a)]

/-- `HarmBlockThreshold` from `api.rs`. -/
inductive HarmBlockThreshold : Type where
  | unspecified
  | low
  | medium
  | high
  | none
deriving DecidableEq

/-- Serializer for `HarmBlockThreshold` (serde renames). -/
def HarmBlockThreshold.toJson : HarmBlockThreshold → Json
  | .unspecified => .str "HARM_BLOCK_THRESHOLD_UNSPECIFIED"
  | .low => .str "BLOCK_LOW_AND_ABOVE"
  | .medium => .str "BLOCK_MEDIUM_AND_ABOVE"
  | .high => .str "BLOCK_ONLY_HIGH"
  | .none => .str "BLOCK_NONE"

/-- `SafetySetting` from `api.rs`. -/
structure SafetySetting : Type where
  category : HarmCategory
  threshold : HarmBlockThreshold
deriving DecidableEq

/-- Serializer for `SafetySetting` (no field renames). -/
def SafetySetting.toJson (s : SafetySetting) : Json :=
  .obj [("category", s.category.toJson), ("threshold", s.threshold.toJson)]

/-- `FunctionDeclaration` from `api.rs`. -/
structure FunctionDeclaration : Type where
  name : String
  description : String
deriving DecidableEq

/-- Serializer for `FunctionDeclaration`. -/
def FunctionDeclaration.toJson (d : FunctionDeclaration) : Json :=
  .obj [("name", .str d.name), ("description", .str d.description)]

/-- `Tool` from `api.rs`. -/
structure Tool : Type where
  function_declarations : List FunctionDeclaration
deriving DecidableEq

/-- Serializer for `Tool` (camelCase wire name). -/
def Tool.toJson (t : Tool) : Json :=
  .obj [("functionDeclarations", .arr (t.function_declarations.map FunctionDeclaration.toJson))]

/-- `ResponseMimeType` from `api.rs`. -/
inductive ResponseMimeType : Type where
  | textPlain
  | applicationJson
deriving DecidableEq

/-- Serializer for `ResponseMimeType` (explicit literal renames). -/
def ResponseMimeType.toJson : ResponseMimeType → Json
  | .textPlain => .str "text/plain"
  | .applicationJson => .str "application/json"

/-- `GenerationConfig` from `api.rs`: all fields optional (the
`frequence_penalty` spelling is the source's). -/
structure GenerationConfig : Type where
  stop_sequences : Option (List String)
  response_mime_type : Option ResponseMimeType
  candidate_count : Option Int
  max_output_tokens : Option Int
  temperature : Option JsonNum
  top_p : Option JsonNum
  top_k : Option Int
  presence_penalty : Option JsonNum
  frequence_penalty : Option JsonNum
  response_logprobs : Option Bool
deriving DecidableEq

/-- `GenerationConfig`'s `Default` derive: every field unset. -/
def GenerationConfig.default : GenerationConfig :=
  { stop_sequences := none, response_mime_type := none, candidate_count := none,
    max_output_tokens := none, temperature := none, top_p := none,
    top_k := none, presence_penalty := none, frequence_penalty := none,
    response_logprobs := none }

/-- Serializer for `GenerationConfig` (camelCase wire names, absent fields
omitted). -/
def GenerationConfig.toJson (c : GenerationConfig) : Json :=
  .obj (optSer "stopSequences" c.stop_sequences (fun xs => .arr (xs.map Json.str)) ++
    optSer "responseMimeType" c.response_mime_type ResponseMimeType.toJson ++
    optSer "candidateCount" c.candidate_count (fun n => .num (JsonNum.ofInt n)) ++
    optSer "maxOutputTokens" c.max_output_tokens (fun n => .num (JsonNum.ofInt n)) ++
    optSer "temperature" c.temperature Json.num ++
    optSer "topP" c.top_p Json.num ++
    optSer "topK" c.top_k (fun n => .num (JsonNum.ofInt n)) ++
    optSer "presencePenalty" c.presence_penalty Json.num ++
    optSer "frequencePenalty" c.frequence_penalty Json.num ++
    optSer "responseLogprobs" c.response_logprobs Json.bool)

/-! ## `lib.rs`: the request envelope and the response -/

/-- `GeminiRequest` from `lib.rs`. -/
structure GeminiRequest : Type where
  contents : List Content
  tools : Option (List Tool)
  safety_settings : Option (List SafetySetting)
  system_instruction : Option Content
  generation_config : Option GenerationConfig
deriving DecidableEq

/-- Serializer for `GeminiRequest`.  `lib.rs` puts no `rename_all` on this
struct, so the wire names stay snake_case; the four optional fields are
omitted when absent. -/
def GeminiRequest.toJson (r : GeminiRequest) : Json :=
  .obj (("contents", .arr (r.contents.map Content.toJson)) ::
    optSer "tools" r.tools (fun ts => .arr (ts.map Tool.toJson)) ++
    optSer "safety_settings" r.safety_settings (fun ss => .arr (ss.map SafetySetting.toJson)) ++
    optSer "system_instruction" r.system_instruction Content.toJson ++
    optSer "generation_config" r.generation_config GenerationConfig.toJson)

/-- `GeminiResponse` from `lib.rs`. -/
structure GeminiResponse : Type where
  candidates : List Candidate
  usage_metadata : UsageMetadata
  prompt_feedback : Option PromptFeedback
deriving DecidableEq

/-- Deserializer for `GeminiResponse` (camelCase wire names); may panic
through the candidate decoders. -/
def GeminiResponse.fromJson (j : Json) : PRes GeminiResponse :=
  match j with
  | .obj _ =>
    match j.getField? "candidates" with
    | none => some (.error "missing field candidates")
    | some cj =>
      PRes.bind (getArrP Candidate.fromJson cj) fun candidates =>
      match j.getField? "usageMetadata" with
      | none => some (.error "missing field usageMetadata")
      | some uj =>
        match UsageMetadata.fromJson uj with
        | .error e => some (.error e)
        | .ok um =>
          match optField j "promptFeedback" PromptFeedback.fromJson with
          | .error e => some (.error e)
          | .ok pf =>
              some (.ok { candidates := candidates, usage_metadata := um,
                          prompt_feedback := pf })
  | _ => some (.error "invalid type: expected a map")

/-- `GeminiResponse::text` from `lib.rs` indexes `candidates[0]`
unconditionally; `none` models the panic on an empty candidate list. -/
def GeminiResponse.text? (r : GeminiResponse) : Option String :=
  match r.candidates with
  | [] => none
  | c :: _ => some c.text

/-! ## `model.rs`: the generative model, request building and the
streaming decoder -/

/-- `GeminiModel` from `model.rs`. -/
inductive GeminiModel : Type where
  | pro_1_5
  | flash_1_5
  | flash_1_5_8B
  | textEmbedding004
  | custom (name : String)
deriving DecidableEq

/-- The `Display` impl for `GeminiModel`. -/
def GeminiModel.toString : GeminiModel → String
  | .pro_1_5 => "gemini-1.5-pro"
  | .flash_1_5 => "gemini-1.5-flash"
  | .flash_1_5_8B => "gemini-1.5-flash-8b"
  | .textEmbedding004 => "text-embedding-004"
  | .custom name => name

/-- `BASE_URL` from `model.rs`. -/
def BASE_URL : String := "https://generativelanguage.googleapis.com/v1beta"

/-- `GenerativeModel` from `model.rs`: stored defaults for every call. -/
structure GenerativeModel : Type where
  api_key : String
  model : GeminiModel
  generation_config : Option GenerationConfig
  system_instruction : Option Content
  safety_settings : Option (List SafetySetting)
  tools : Option (List Tool)
deriving DecidableEq

/-- `GenerativeModelBuilder` from `model.rs`: the per-call override
builder. -/
structure GenerativeModelBuilder : Type where
  api_key : Option String
  model : Option GeminiModel
  system_instruction : Option Content
  safety_settings : Option (List SafetySetting)
  generation_config : Option GenerationConfig
  tools : Option (List Tool)
deriving DecidableEq

/-- `GenerativeModelBuilder::new`: all overrides absent. -/
def GenerativeModelBuilder.new : GenerativeModelBuilder :=
  { api_key := none, model := none, system_instruction := none,
    safety_settings := none, generation_config := none, tools := none }

/-- The `GeminiRequest` built inside `GenerativeModel::send_request`: per
field, the override if present, else the stored default
(`config.field.or_else(|| self.field.clone())`). -/
def GenerativeModel.buildRequest (m : GenerativeModel) (prompt : List Content)
    (config : GenerativeModelBuilder) : GeminiRequest :=
  { contents := prompt
    tools := config.tools.orElse fun _ => m.tools
    safety_settings := config.safety_settings.orElse fun _ => m.safety_settings
    system_instruction := config.system_instruction.orElse fun _ => m.system_instruction
    generation_config := config.generation_config.orElse fun _ => m.generation_config }

/-- The model identifier used in the request URL:
`config.model.as_ref().unwrap_or(&self.model)`. -/
def GenerativeModel.requestModel (m : GenerativeModel)
    (config : GenerativeModelBuilder) : GeminiModel :=
  config.model.getD m.model

/-- The URL `send_request` posts to. -/
def GenerativeModel.requestUrl (m : GenerativeModel)
    (config : GenerativeModelBuilder) (stream : Bool) : String :=
  BASE_URL ++ "/models/" ++ (m.requestModel config).toString ++ ":" ++
    (if stream then "streamGenerateContent" else "generateContent") ++
    "?key=" ++ m.api_key

/-- `serde_json::from_str::<GeminiResponse>`: parse the text, then decode;
may panic through `des_data`. -/
def from_str_GeminiResponse (text : String) : PRes GeminiResponse :=
  match Json.parse text with
  | .error e => some (.error e)
  | .ok j => GeminiResponse.fromJson j

/-- `serde_json::from_str::<GeminiGenericErrorResponse>`. -/
def from_str_GenericErrorResponse (text : String) : DRes GeminiGenericErrorResponse :=
  match Json.parse text with
  | .error e => .error e
  | .ok j => GeminiGenericErrorResponse.fromJson j

/-- The response-body handling shared by `generate_content_with` and the
streaming decoder: first try the success schema; on failure try the
generic error envelope and map it; if that also fails, an `Other` error
with the parse failure's message.  `none` models a decode panic. -/
def decodeResponseText (text : String) : Option (Except GeminiError GeminiResponse) :=
  match from_str_GeminiResponse text with
  | none => none
  | some (.ok response) => some (.ok response)
  | some (.error _) =>
      some (.error
        (match from_str_GenericErrorResponse text with
         | .ok x => GeminiError.fromGeneric x.error
         | .error e => GeminiError.ofMessage e))

/-- One step of the closure inside `generate_content_streamed_with`.
The input is one result from `bytes_stream` (transport error or raw
bytes).  The outer `Option` is a panic (`expect` on UTF-8, or the `[1..]`
slice); the inner `Option` is `filter_map`'s skip; the innermost value is
the emitted stream item. -/
def processChunk (chunk : Except String (List Nat)) :
    Option (Option (Except GeminiError GeminiResponse)) :=
  match chunk with
  | .error err => some (some (.error (GeminiError.ofMessage err)))
  | .ok bytes =>
    match utf8Decode? bytes with
    | none => none
    | some s =>
      match strTail? s with
      | none => none
      | some rest =>
        if rest = "" then some none
        else
          match decodeResponseText rest with
          | none => none
          | some item => some (some item)

/-- The whole streamed sequence, as `StreamExt::filter_map` produces it
over the list of chunks delivered by the HTTP body: skipped chunks
contribute nothing and do not terminate the stream.  `none` is a panic in
some chunk. -/
def decodeStream (chunks : List (Except String (List Nat))) :
    Option (List (Except GeminiError GeminiResponse)) :=
  match chunks with
  | [] => some []
  | c :: cs =>
    match processChunk c with
    | none => none
    | some none => decodeStream cs
    | some (some item) => (decodeStream cs).map fun items => item :: items

/-! ## `chat.rs`: the chat session

`send_message` pushes the user turn, calls
`self.model.generate_content(self.history.clone())` — abstracted here as
the `transport` argument, whose `none` result models a panic inside the
call — and on success pushes `response.candidates[0].content`, which
panics (`none`) when the candidate list is empty. -/

/-- `ChatSession` from `chat.rs`. -/
structure ChatSession : Type where
  model : GenerativeModel
  history : List Content
deriving DecidableEq

/-- `GenerativeModel::start_chat`. -/
def GenerativeModel.start_chat (m : GenerativeModel) (history : List Content) :
    ChatSession :=
  { model := m, history := history }

/-- `ChatSession::send_message`, returning the updated session together
with the call's result; `none` models a panic. -/
def ChatSession.send_message (s : ChatSession) (content : Content)
    (transport : List Content → Option (Except GeminiError GeminiResponse)) :
    Option (ChatSession × Except GeminiError GeminiResponse) :=
  let history := s.history ++ [content]
  match transport history with
  | none => none
  | some (.ok response) =>
    match response.candidates with
    | [] => none
    | c :: _ =>
        some ({ s with history := history ++ [c.content] }, .ok response)
  | some (.error e) => some ({ s with history := history }, .error e)

/-! ## Concrete fixtures used by witnesses -/

/-- A sample model configuration. -/
def sampleModel : GenerativeModel :=
  { api_key := "key", model := GeminiModel.pro_1_5, generation_config := none,
    system_instruction := none, safety_settings := none, tools := none }

/-- A sample candidate answering "hello". -/
def sampleCandidate : Candidate :=
  { content := Content.model (Part.text "hello"), safety_ratings := none,
    citation_metadata := none, finish_reason := none,
    grounding_attributions := none }

/-- Empty usage metadata. -/
def emptyUsage : UsageMetadata :=
  { prompt_token_count := none, candidates_token_count := none,
    cached_content_token_count := none, total_token_count := none }

/-- A sample successful response with one candidate. -/
def sampleResponse : GeminiResponse :=
  { candidates := [sampleCandidate], usage_metadata := emptyUsage,
    prompt_feedback := none }

/-- A sample response with no candidates. -/
def emptyResponse : GeminiResponse :=
  { candidates := [], usage_metadata := emptyUsage, prompt_feedback := none }

/-- A sample transport failure. -/
def sampleError : GeminiError :=
  { kind := GeminiErrorKind.internal, message := "boom" }

/-! ## Theorems -/

/-- Decoding inverts encoding on each alphabet character. -/
theorem b64DecChar_b64Char : ∀ n : Nat, n < 64 → b64DecChar (b64Char n) = some n := by
  decide

/-- Alphabet characters are never the padding character. -/
theorem b64Char_ne_pad : ∀ n : Nat, n < 64 → b64Char n ≠ '=' := by
  decide

/-- Decoding inverts encoding on chunked byte groups. -/
theorem b64decodeChunks_encodeChunks :
    ∀ bs : List Nat, (∀ b ∈ bs, b < 256) →
      b64decodeChunks (b64encodeChunks bs) = some bs
  | [], _ => by simp [b64encodeChunks, b64decodeChunks]
  | [b0], h => by
    have hb0 : b0 < 256 := h b0 (by simp)
    have e0 := b64DecChar_b64Char (b0 / 4) (by omega)
    have e1 := b64DecChar_b64Char (b0 % 4 * 16) (by omega)
    have hmod : b0 % 4 * 16 % 16 = 0 := by omega
    simp only [b64encodeChunks, b64decodeChunks, e0, e1, hmod, and_true, if_true,
      if_pos (And.intro rfl (And.intro rfl rfl))]
    simp only [Option.some.injEq, List.cons.injEq, and_true]
    omega
  | [b0, b1], h => by
    have hb0 : b0 < 256 := h b0 (by simp)
    have hb1 : b1 < 256 := h b1 (by simp)
    have e0 := b64DecChar_b64Char (b0 / 4) (by omega)
    have e1 := b64DecChar_b64Char (b0 % 4 * 16 + b1 / 16) (by omega)
    have e2 := b64DecChar_b64Char (b1 % 16 * 4) (by omega)
    have hne : b64Char (b1 % 16 * 4) ≠ '=' := b64Char_ne_pad _ (by omega)
    have hmod : b1 % 16 * 4 % 4 = 0 := by omega
    simp only [b64encodeChunks, b64decodeChunks]
    rw [if_neg (by intro hc; exact hne hc.1)]
    simp only [true_and, and_true, and_self, if_true]
    simp only [e0, e1, e2, hmod]
    simp only [if_pos]
    simp only [Option.some.injEq, List.cons.injEq, and_true]
    constructor
    · omega
    · omega
  | b0 :: b1 :: b2 :: rest, h => by
    have hb0 : b0 < 256 := h b0 (by simp)
    have hb1 : b1 < 256 := h b1 (by simp)
    have hb2 : b2 < 256 := h b2 (by simp)
    have ih := b64decodeChunks_encodeChunks rest
      (fun b hb => h b (by simp [hb]))
    have e0 := b64DecChar_b64Char (b0 / 4) (by omega)
    have e1 := b64DecChar_b64Char (b0 % 4 * 16 + b1 / 16) (by omega)
    have e2 := b64DecChar_b64Char (b1 % 16 * 4 + b2 / 64) (by omega)
    have e3 := b64DecChar_b64Char (b2 % 64) (by omega)
    have hne2 : b64Char (b1 % 16 * 4 + b2 / 64) ≠ '=' := b64Char_ne_pad _ (by omega)
    have hne3 : b64Char (b2 % 64) ≠ '=' := b64Char_ne_pad _ (by omega)
    show b64decodeChunks
      (b64Char (b0 / 4) :: b64Char (b0 % 4 * 16 + b1 / 16) ::
        b64Char (b1 % 16 * 4 + b2 / 64) :: b64Char (b2 % 64) ::
        b64encodeChunks rest) = _
    simp only [b64decodeChunks]
    rw [if_neg (by intro hc; exact hne2 hc.1)]
    rw [if_neg (by intro hc; exact hne3 hc.1)]
    simp only [e0, e1, e2, e3, ih]
    simp only [Option.some.injEq, List.cons.injEq]
    refine ⟨by omega, by omega, by omega, trivial⟩

/-- Decoding inverts encoding: the base64 round-trip on well-formed
bytes. -/
theorem b64decode_b64encode (bs : List Nat) (h : ∀ b ∈ bs, b < 256) :
    b64decode (b64encode bs) = some bs := by
  simpa [b64decode, b64encode] using b64decodeChunks_encodeChunks bs h


/-- `des_data` inverts `ser_data` on well-formed bytes. -/
theorem des_data_ser_data (bytes : List Nat) (h : ∀ b ∈ bytes, b < 256) :
    des_data (ser_data bytes) = some (.ok bytes) := by
  simp [des_data, ser_data, getStr, b64decode_b64encode bytes h]

/-- Part round-trip on a binary part. -/
theorem Part_roundtrip_data (bytes : List Nat) (mime : String)
    (h : ∀ b ∈ bytes, b < 256) :
    Part.fromJson (Part.toJson (Part.data bytes mime)) =
      some (.ok (Part.data bytes mime)) := by
  simp [Part.toJson, Part.fromJson, Json.getField?, List.lookup,
    des_data_ser_data bytes h, PRes.bind, getStr]

/-- Role round-trip. -/
theorem Role_roundtrip (r : Role) : Role.fromJson r.toJson = .ok r := by
  cases r <;> rfl

/-- C8: serializing a `Content` holding one binary part and deserializing
the result restores the bytes and the MIME type exactly. -/
theorem content_binary_roundtrip (role : Role) (bytes : List Nat) (mime : String)
    (h : ∀ b ∈ bytes, b < 256) :
    Content.fromJson (Content.toJson { role := role, parts := [Part.data bytes mime] }) =
      some (.ok { role := role, parts := [Part.data bytes mime] }) := by
  simp [Content.toJson, Content.fromJson, Json.getField?, List.lookup,
    Role_roundtrip, decodeListP, Part_roundtrip_data bytes mime h, PRes.bind]

/-- Witness for the round-trip theorem at concrete bytes and MIME type. -/
theorem content_binary_roundtrip_witness :
    (∀ b ∈ [0, 1, 2, 255], b < 256) ∧
    Content.fromJson (Content.toJson { role := Role.user, parts := [Part.data [0, 1, 2, 255] "image/png"] }) =
      some (.ok { role := Role.user, parts := [Part.data [0, 1, 2, 255] "image/png"] }) :=
  ⟨by decide, content_binary_roundtrip Role.user [0, 1, 2, 255] "image/png" (by decide)⟩


/-- C4: the status-string mapping is total, covers the six recognized
statuses, sends everything else to `Other`, and preserves the envelope's
message. -/
theorem fromGeneric_mapping (e : GeminiGenericError) :
    (GeminiError.fromGeneric e).message = e.message ∧
    (GeminiError.fromGeneric e).kind =
      (if e.status = "INVALID_ARGUMENT" then GeminiErrorKind.invalidArgument
       else if e.status = "FAILED_PRECONDITION" then GeminiErrorKind.unsupportedCountry
       else if e.status = "PERMISSION_DENIED" then GeminiErrorKind.permissionDenied
       else if e.status = "RESOURCE_EXHAUSTED" then GeminiErrorKind.resourceExhausted
       else if e.status = "INTERNAL" then GeminiErrorKind.internal
       else if e.status = "UNAVAILABLE" then GeminiErrorKind.serviceUnavailable
       else GeminiErrorKind.other) := by
  unfold GeminiError.fromGeneric
  refine ⟨rfl, ?_⟩
  split <;> simp_all


/-- C2: a successful exchange appends the user turn and then the first
candidate's content, growing the history by exactly two entries. -/
theorem send_message_success (s : ChatSession) (content : Content)
    (transport : List Content → Option (Except GeminiError GeminiResponse))
    (r : GeminiResponse) (c : Candidate) (cs : List Candidate)
    (htr : transport (s.history ++ [content]) = some (.ok r))
    (hc : r.candidates = c :: cs) :
    s.send_message content transport =
      some ({ s with history := s.history ++ [content, c.content] }, .ok r) := by
  simp only [ChatSession.send_message, htr, hc]
  simp [List.append_assoc]

/-- C3: a failed exchange leaves exactly the appended user turn in the
history and adds no model turn. -/
theorem send_message_failure (s : ChatSession) (content : Content)
    (transport : List Content → Option (Except GeminiError GeminiResponse))
    (e : GeminiError)
    (htr : transport (s.history ++ [content]) = some (.error e)) :
    s.send_message content transport =
      some ({ s with history := s.history ++ [content] }, .error e) := by
  simp only [ChatSession.send_message, htr]

/-- C10: with an empty candidate list both `send_message` and
`GeminiResponse::text` panic; with a non-empty list neither does. -/
theorem first_candidate_panic (s : ChatSession) (content : Content)
    (transport : List Content → Option (Except GeminiError GeminiResponse))
    (r : GeminiResponse)
    (htr : transport (s.history ++ [content]) = some (.ok r)) :
    (r.candidates = [] →
      s.send_message content transport = none ∧ r.text? = none) ∧
    (r.candidates ≠ [] →
      (s.send_message content transport).isSome ∧ r.text?.isSome) := by
  constructor
  · intro hc
    simp only [ChatSession.send_message, GeminiResponse.text?, htr, hc]
    exact ⟨trivial, trivial⟩
  · intro hc
    match hcs : r.candidates with
    | [] => exact absurd hcs hc
    | c :: cs =>
      simp only [ChatSession.send_message, GeminiResponse.text?, htr, hcs]
      exact ⟨by simp, by simp⟩

/-- Witness for the success case: empty history, "hi" in, "hello" back. -/
theorem send_message_success_witness :
    ChatSession.send_message { model := sampleModel, history := [] }
        (Content.user (Part.text "hi")) (fun _ => some (.ok sampleResponse)) =
      some ({ model := sampleModel,
              history := [Content.user (Part.text "hi"), Content.model (Part.text "hello")] },
            .ok sampleResponse) :=
  send_message_success { model := sampleModel, history := [] }
    (Content.user (Part.text "hi")) (fun _ => some (.ok sampleResponse))
    sampleResponse sampleCandidate [] rfl rfl

/-- Witness for the failure case: the user turn stays, no model turn. -/
theorem send_message_failure_witness :
    ChatSession.send_message { model := sampleModel, history := [] }
        (Content.user (Part.text "hi")) (fun _ => some (.error sampleError)) =
      some ({ model := sampleModel, history := [Content.user (Part.text "hi")] },
            .error sampleError) :=
  send_message_failure { model := sampleModel, history := [] }
    (Content.user (Part.text "hi")) (fun _ => some (.error sampleError))
    sampleError rfl

/-- Witness: a successful response with zero candidates makes
`send_message` and `text` panic. -/
theorem first_candidate_panic_witness :
    ChatSession.send_message { model := sampleModel, history := [] }
        (Content.user (Part.text "hi")) (fun _ => some (.ok emptyResponse)) = none ∧
    emptyResponse.text? = none :=
  (first_candidate_panic { model := sampleModel, history := [] }
    (Content.user (Part.text "hi")) (fun _ => some (.ok emptyResponse))
    emptyResponse rfl).1 rfl


/-- C5: the request takes each optional field from the per-call override
when present, else from the model's stored default, and the URL's model
identifier follows the same rule. -/
theorem buildRequest_merges (m : GenerativeModel) (prompt : List Content)
    (config : GenerativeModelBuilder) (stream : Bool) :
    (m.buildRequest prompt config).contents = prompt ∧
    (m.buildRequest prompt config).tools =
      (if config.tools.isSome then config.tools else m.tools) ∧
    (m.buildRequest prompt config).safety_settings =
      (if config.safety_settings.isSome then config.safety_settings else m.safety_settings) ∧
    (m.buildRequest prompt config).system_instruction =
      (if config.system_instruction.isSome then config.system_instruction else m.system_instruction) ∧
    (m.buildRequest prompt config).generation_config =
      (if config.generation_config.isSome then config.generation_config else m.generation_config) ∧
    m.requestModel config =
      (match config.model with
       | some over => over
       | none => m.model) ∧
    m.requestUrl config stream =
      BASE_URL ++ "/models/" ++ (m.requestModel config).toString ++ ":" ++
        (if stream then "streamGenerateContent" else "generateContent") ++
        "?key=" ++ m.api_key := by
  obtain ⟨ak, mo, si, ss, gc, ts⟩ := config
  refine ⟨rfl, ?_, ?_, ?_, ?_, ?_, rfl⟩
  · cases ts <;> rfl
  · cases ss <;> rfl
  · cases si <;> rfl
  · cases gc <;> rfl
  · cases mo <;> rfl


/-- Keys contributed by an optional field. -/
theorem optSer_keys {α : Type} (name : String) (o : Option α) (f : α → Json) :
    (optSer name o f).map Prod.fst = if o.isSome then [name] else [] := by
  cases o <;> rfl

/-- Membership in a conditional singleton. -/
theorem mem_ite_singleton (k n : String) (b : Bool) :
    (k ∈ if b then [n] else []) ↔ b = true ∧ k = n := by
  cases b <;> simp

/-- C7: a fully-unset `GenerationConfig` serializes to the empty JSON
object, and in general each optional key of `GenerationConfig` and of
`GeminiRequest` appears in the payload exactly when the field is set
(absent fields are omitted, never emitted as `null`). -/
theorem serialization_omits_absent_fields (c : GenerationConfig) (r : GeminiRequest) :
    GenerationConfig.default.toJson = Json.obj [] ∧
    ("stopSequences" ∈ c.toJson.keys ↔ c.stop_sequences.isSome) ∧
    ("responseMimeType" ∈ c.toJson.keys ↔ c.response_mime_type.isSome) ∧
    ("candidateCount" ∈ c.toJson.keys ↔ c.candidate_count.isSome) ∧
    ("maxOutputTokens" ∈ c.toJson.keys ↔ c.max_output_tokens.isSome) ∧
    ("temperature" ∈ c.toJson.keys ↔ c.temperature.isSome) ∧
    ("topP" ∈ c.toJson.keys ↔ c.top_p.isSome) ∧
    ("topK" ∈ c.toJson.keys ↔ c.top_k.isSome) ∧
    ("presencePenalty" ∈ c.toJson.keys ↔ c.presence_penalty.isSome) ∧
    ("frequencePenalty" ∈ c.toJson.keys ↔ c.frequence_penalty.isSome) ∧
    ("responseLogprobs" ∈ c.toJson.keys ↔ c.response_logprobs.isSome) ∧
    ("contents" ∈ r.toJson.keys) ∧
    ("tools" ∈ r.toJson.keys ↔ r.tools.isSome) ∧
    ("safety_settings" ∈ r.toJson.keys ↔ r.safety_settings.isSome) ∧
    ("system_instruction" ∈ r.toJson.keys ↔ r.system_instruction.isSome) ∧
    ("generation_config" ∈ r.toJson.keys ↔ r.generation_config.isSome) := by
  refine ⟨rfl, ?_, ?_, ?_, ?_, ?_, ?_, ?_, ?_, ?_, ?_, ?_, ?_, ?_, ?_, ?_⟩ <;>
    simp only [GenerationConfig.toJson, GeminiRequest.toJson, Json.keys,
      List.map_append, List.map_cons, optSer_keys, List.mem_append,
      List.mem_cons, mem_ite_singleton] <;>
    simp


/-- C6: the response body is first parsed as the success schema (returning
`Ok` on success); otherwise the generic error envelope is tried and its
status mapped; if that also fails the result is an `Other` error carrying
the parse failure's message. -/
theorem decodeResponseText_order (text : String) :
    (∀ r : GeminiResponse, from_str_GeminiResponse text = some (.ok r) →
        decodeResponseText text = some (.ok r)) ∧
    (∀ (msg : String) (env : GeminiGenericErrorResponse),
        from_str_GeminiResponse text = some (.error msg) →
        from_str_GenericErrorResponse text = .ok env →
        decodeResponseText text = some (.error (GeminiError.fromGeneric env.error))) ∧
    (∀ msg e : String,
        from_str_GeminiResponse text = some (.error msg) →
        from_str_GenericErrorResponse text = .error e →
        decodeResponseText text =
          some (.error { kind := GeminiErrorKind.other, message := e })) := by
  refine ⟨?_, ?_, ?_⟩
  · intro r h
    simp [decodeResponseText, h]
  · intro msg env h henv
    simp [decodeResponseText, h, henv]
  · intro msg e h henv
    simp [decodeResponseText, h, henv, GeminiError.ofMessage]

/-- Witness: a body that only parses as the error envelope yields the
mapped `ResourceExhausted` error with the envelope's message. -/
theorem decodeResponseText_order_witness :
    decodeResponseText "\x7b\"error\":\x7b\"code\":429,\"message\":\"quota\",\"status\":\"RESOURCE_EXHAUSTED\"\x7d\x7d" =
      some (.error { kind := GeminiErrorKind.resourceExhausted, message := "quota" }) :=
  (decodeResponseText_order _).2.1 "missing field candidates"
    { error := { code := 429, message := "quota", status := "RESOURCE_EXHAUSTED" } }
    (by decide) (by decide)


/-- C1 as stated is false: an empty remainder does not terminate the
sequence.  `filter_map` merely skips the chunk, so a chunk arriving after
the closing bracket still produces an item (here: one error item after the
"]" chunk, on the chunk bytes ",x"). -/
theorem streaming_terminate_counterexample :
    decodeStream [Except.ok [91], Except.ok [93], Except.ok [44, 120]] =
      some [.error { kind := GeminiErrorKind.other, message := "expected value" }] := by
  decide

/-- C1 (amended): each chunk is stripped of exactly its first character and
the remainder is decoded as one JSON value; an empty remainder yields no
item for that chunk but decoding continues with the subsequent chunks, the
stream ending only with the underlying chunk list. -/
theorem processChunk_spec (bytes : List Nat) (cs : List (Except String (List Nat)))
    (s rest : String)
    (hdec : utf8Decode? bytes = some s)
    (htail : strTail? s = some rest) :
    decodeStream (Except.ok bytes :: cs) =
      (if rest = "" then decodeStream cs
       else
         match decodeResponseText rest with
         | none => none
         | some item => (decodeStream cs).map fun items => item :: items) := by
  by_cases hr : rest = ""
  · simp [decodeStream, processChunk, hdec, htail, hr]
  · cases hd : decodeResponseText rest <;>
      simp [decodeStream, processChunk, hdec, htail, hr, hd]

/-- Witness: the chunk ",x" is stripped to "x", which decodes to one error
item. -/
theorem processChunk_spec_witness :
    decodeStream [Except.ok [44, 120]] =
      some [.error { kind := GeminiErrorKind.other, message := "expected value" }] :=
  (processChunk_spec [44, 120] [] ",x" "x" (by decide) (by decide)).trans (by decide)

/-- C9 as stated is false: the decode paths assumed infallible panic.  A
`Part` data field that is not valid base64 panics (`unwrap`), a streaming
chunk that is not valid UTF-8 panics (`expect`), and an empty streaming
chunk panics (the `[1..]` slice). -/
theorem no_panic_counterexample :
    des_data (Json.str "%%%%") = none ∧
    processChunk (Except.ok [255]) = none ∧
    processChunk (Except.ok []) = none := by
  decide

/-- C9 (amended): every input on which the assumed-infallible decodes fail
is a panic: any non-base64 data string in a `Part`, any non-UTF-8 chunk,
and the empty chunk. -/
theorem decode_panics (s : String) (bytes : List Nat)
    (hb : b64decode s = none) (hu : utf8Decode? bytes = none) :
    des_data (Json.str s) = none ∧
    processChunk (Except.ok bytes) = none ∧
    processChunk (Except.ok []) = none := by
  refine ⟨?_, ?_, by decide⟩
  · simp [des_data, getStr, hb]
  · simp [processChunk, hu]

/-- Witness: "!" is not base64 and `[200]` is not UTF-8; both panic, as
does the empty chunk. -/
theorem decode_panics_witness :
    (b64decode "!" = none ∧ utf8Decode? [200] = none) ∧
    (des_data (Json.str "!") = none ∧
     processChunk (Except.ok [200]) = none ∧
     processChunk (Except.ok []) = none) :=
  ⟨⟨by decide, by decide⟩, decode_panics "!" [200] (by decide) (by decide)⟩

end RustyGemini
